import Mathlib

/-!
Shallow embedding of the conversation core of the `ph_sales_llm` repository
(`src/core/models.py`, `src/core/conversation_manager.py`,
`src/core/action_handler.py`, `src/chatbot.py`).

Modelling conventions:
* Python strings are Lean `String`s; `str.lower`, `\w`, `\s` and the regex
  character classes are modelled over ASCII (all literals in the code and the
  spec scenarios are ASCII).
* Python `None`-able fields become `Option`; Python truthiness of a value
  (`if field:`) is modelled explicitly (`none`, `""` and `0` are falsy).
* The mutable `ConversationState` is threaded functionally: every mutating
  method returns the updated state.
* Python dicts used as entity bags are association lists with Python dict
  assignment semantics (`dictInsert` overwrites in place, appends new keys).
* `list(set(xs))` has an unspecified element order in Python (string hashing
  is randomized); it is modelled by an arbitrary function `f` constrained by
  `ValidSetList f`: the result is a permutation of the distinct elements.
* `datetime` timestamps, logging, and the `data` payload of action results
  are omitted: no claim mentions them and they influence no modelled output.
* The action collaborators in `src/function_calls.py` are mocks that always
  succeed; they are modelled as always-successful calls.  The generative
  responder may fail; its outcome is a parameter of type `Except Unit String`.
-/

/-- Python truthiness of an optional string (`None` and `""` are falsy). -/
def truthyStr : Option String → Bool
  | none => false
  | some s => !s.isEmpty

/-- Python truthiness of an optional integer (`None` and `0` are falsy). -/
def truthyNat : Option Nat → Bool
  | none => false
  | some n => n != 0

/-- ASCII lowering of a string, modelling Python `str.lower()`. -/
def lowerStr (s : String) : String := String.mk (s.data.map Char.toLower)

/-- Substring test on character lists: does `l` contain `pat` contiguously?
Models the Python `pat in s` operator on strings. -/
def subIn (pat : List Char) : List Char → Bool
  | [] => pat.isEmpty
  | c :: t => pat.isPrefixOf (c :: t) || subIn pat t

/-- Python `pat in s` on strings. -/
def strIn (pat s : String) : Bool := subIn pat.data s.data

/-- Value stored in a Python entity dict: a string, an int, or `None`. -/
inductive EVal where
  | s (v : String)
  | n (v : Nat)
  | null
deriving DecidableEq, Repr

/-- Python truthiness of an entity value. -/
def EVal.truthy : EVal → Bool
  | .s v => !v.isEmpty
  | .n v => v != 0
  | .null => false

/-- Rendering of an entity value inside an f-string (`None` prints as such). -/
def EVal.pyStr : EVal → String
  | .s v => v
  | .n v => toString v
  | .null => "None"

/-- An entities bag: a Python dict keyed by entity-kind names. -/
abbrev Entities := List (String × EVal)

/-- Python dict assignment `d[k] = v`: overwrite in place or append. -/
def dictInsert (k : String) (v : EVal) : Entities → Entities
  | [] => [(k, v)]
  | (k2, v2) :: t => if k2 = k then (k, v) :: t else (k2, v2) :: dictInsert k v t

/-- Python `d.get(k)` / `k in d` combined: the stored value, if the key exists. -/
def dictGet (k : String) : Entities → Option EVal
  | [] => none
  | (k2, v2) :: t => if k2 = k then some v2 else dictGet k t

/-- Python `d.update(e)`: assign every key of `e` into `d`, in order. -/
def dictUpdate (d e : Entities) : Entities := e.foldl (fun acc kv => dictInsert kv.1 kv.2 acc) d

/-- `ConversationStatus` enum of `models.py`. -/
inductive ConversationStatus where
  | active | completed | pending_email | pending_callback
deriving DecidableEq, Repr

/-- `PharmacyType` enum of `models.py`. -/
inductive PharmacyType where
  | high_volume | medium_volume | low_volume | startup
deriving DecidableEq, Repr

/-- The `.value` string of a `PharmacyType` member. -/
def PharmacyType.value : PharmacyType → String
  | .high_volume => "high_volume"
  | .medium_volume => "medium_volume"
  | .low_volume => "low_volume"
  | .startup => "startup"

/-- `PharmacyData` dataclass of `models.py`. -/
structure PharmacyData where
  name : String
  phone : String
  city : Option String := none
  state : Option String := none
  rx_volume : Option Nat := none
  email : Option String := none
  contact_person : Option String := none
deriving DecidableEq, Repr

/-- `PharmacyData.pharmacy_type`: volume classification (`not self.rx_volume`
is Python truthiness, so both `None` and `0` give `startup`). -/
def PharmacyData.pharmacy_type (p : PharmacyData) : PharmacyType :=
  if !truthyNat p.rx_volume then .startup
  else match p.rx_volume with
    | some v => if v ≥ 10000 then .high_volume
        else if v ≥ 5000 then .medium_volume
        else if v ≥ 1000 then .low_volume
        else .startup
    | none => .startup

/-- `LeadData` dataclass of `models.py`. -/
structure LeadData where
  phone : String
  pharmacy_name : Option String := none
  contact_person : Option String := none
  email : Option String := none
  location : Option String := none
  rx_volume : Option Nat := none
  interests : List String := []
  notes : String := ""
deriving DecidableEq, Repr

/-- Number of truthy fields among the five tracked by `completion_percentage`
(the generator `sum(1 for field in fields if field)` counts truthy values). -/
def LeadData.completedCount (l : LeadData) : Nat :=
  [truthyStr l.pharmacy_name, truthyStr l.contact_person, truthyStr l.email,
   truthyStr l.location, truthyNat l.rx_volume].count true

/-- `LeadData.completion_percentage`: `int((completed / 5) * 100)`.  For
`completed ∈ {0,…,5}` the Python float computation is exact (each quotient
`k/5` and product `(k/5)*100` rounds to the mathematically exact double), so
it is modelled as exact natural division. -/
def LeadData.completion_percentage (l : LeadData) : Nat :=
  (l.completedCount * 100) / 5

/-- `ConversationMessage` of `models.py` (timestamp and metadata omitted:
no modelled behaviour reads them). -/
structure ConversationMessage where
  role : String
  content : String
deriving DecidableEq, Repr

/-- `ConversationState` dataclass of `models.py` (started_at omitted). -/
structure ConversationState where
  phone_number : String
  status : ConversationStatus := .active
  pharmacy_data : Option PharmacyData := none
  lead_data : Option LeadData := none
  messages : List ConversationMessage := []
  actions_taken : List String := []
deriving DecidableEq, Repr

/-- `ConversationState.is_known_pharmacy`. -/
def ConversationState.is_known_pharmacy (st : ConversationState) : Bool :=
  st.pharmacy_data.isSome

/-- `ConversationState.current_pharmacy_name`. -/
def ConversationState.current_pharmacy_name (st : ConversationState) : String :=
  match st.pharmacy_data with
  | some p => p.name
  | none =>
    match st.lead_data with
    | some l => match l.pharmacy_name with
      | some nm => if nm.isEmpty then "your pharmacy" else nm
      | none => "your pharmacy"
    | none => "your pharmacy"

/-- `ConversationState.has_email`: a truthy email on either record. -/
def ConversationState.has_email (st : ConversationState) : Bool :=
  (match st.pharmacy_data with | some p => truthyStr p.email | none => false) ||
  (match st.lead_data with | some l => truthyStr l.email | none => false)

/-- `ConversationState.email_address`. -/
def ConversationState.email_address (st : ConversationState) : Option String :=
  if (match st.pharmacy_data with | some p => truthyStr p.email | none => false) then
    st.pharmacy_data.bind (fun p => p.email)
  else if (match st.lead_data with | some l => truthyStr l.email | none => false) then
    st.lead_data.bind (fun l => l.email)
  else none

/-- `ConversationState.add_message` (metadata dropped). -/
def ConversationState.add_message (st : ConversationState) (role content : String) :
    ConversationState :=
  { st with messages := st.messages ++ [{ role := role, content := content }] }

/-- `ConversationState.add_action`: append only if not already present. -/
def ConversationState.add_action (st : ConversationState) (action : String) :
    ConversationState :=
  if action ∈ st.actions_taken then st
  else { st with actions_taken := st.actions_taken ++ [action] }

/-! ### A small backtracking regex engine

Faithful model of the fragment of Python `re` used by
`conversation_manager.py`: character classes, greedy `+`/`*`/`?`, lazy `*?`,
`{2,}`/`{2}` (as unrolled repetitions), `\b`, and a single capture group.
Matching is leftmost (scan start positions left to right), greedy with
backtracking, exactly as CPython's engine behaves on these patterns. -/

/-- Python `\w` over ASCII. -/
def isWordChar (c : Char) : Bool :=
  (('A' ≤ c && c ≤ 'Z') || ('a' ≤ c && c ≤ 'z') || ('0' ≤ c && c ≤ '9') || c == '_')

/-- Python `\s` over ASCII. -/
def isSpaceChar (c : Char) : Bool :=
  c == ' ' || c == '\t' || c == '\n' || c == '\x0d' || c == '\x0b' || c == '\x0c'

/-- Python `\d`. -/
def isDigitChar (c : Char) : Bool := '0' ≤ c && c ≤ '9'

/-- One token of a compiled pattern. -/
inductive Tok where
  | one (p : Char → Bool)
  | star (p : Char → Bool)
  | starNG (p : Char → Bool)
  | opt (p : Char → Bool)
  | wb
  | gopen
  | gclose

/-- Result of an anchored match attempt: characters consumed, and the
positions (offsets from the attempt start) of the capture group, if any. -/
structure MRes where
  consumed : Nat
  gs : Option Nat := none
  ge : Option Nat := none

/-- Anchored match of a token list against `rem`, with `prev` the character
just before the attempt position (for `\b`) and `pos` the offset consumed so
far.  Greedy quantifiers try the longest continuation first and backtrack;
the lazy `*?` tries the shortest first.  Structural recursion on a fuel
argument that bounds the tokens-plus-input measure. -/
def tmF : Nat → List Tok → List Char → Option Char → Nat → Option MRes
  | 0, _, _, _, _ => none
  | _ + 1, [], _, _, pos => some { consumed := pos }
  | fuel + 1, .one p :: ts, rem, _, pos =>
    match rem with
    | [] => none
    | c :: rest => if p c then tmF fuel ts rest (some c) (pos + 1) else none
  | fuel + 1, .star p :: ts, rem, prev, pos =>
    match rem with
    | [] => tmF fuel ts [] prev pos
    | c :: rest =>
      if p c then
        match tmF fuel (.star p :: ts) rest (some c) (pos + 1) with
        | some r => some r
        | none => tmF fuel ts (c :: rest) prev pos
      else tmF fuel ts (c :: rest) prev pos
  | fuel + 1, .starNG p :: ts, rem, prev, pos =>
    (match tmF fuel ts rem prev pos with
     | some r => some r
     | none =>
       match rem with
       | [] => none
       | c :: rest => if p c then tmF fuel (.starNG p :: ts) rest (some c) (pos + 1) else none)
  | fuel + 1, .opt p :: ts, rem, prev, pos =>
    match rem with
    | [] => tmF fuel ts [] prev pos
    | c :: rest =>
      if p c then
        match tmF fuel ts rest (some c) (pos + 1) with
        | some r => some r
        | none => tmF fuel ts (c :: rest) prev pos
      else tmF fuel ts (c :: rest) prev pos
  | fuel + 1, .wb :: ts, rem, prev, pos =>
    let nextw := match rem with | c :: _ => isWordChar c | [] => false
    let prevw := match prev with | some c => isWordChar c | none => false
    if prevw != nextw then tmF fuel ts rem prev pos else none
  | fuel + 1, .gopen :: ts, rem, prev, pos =>
    match tmF fuel ts rem prev pos with
    | some r => some { r with gs := some pos }
    | none => none
  | fuel + 1, .gclose :: ts, rem, prev, pos =>
    match tmF fuel ts rem prev pos with
    | some r => some { r with ge := some pos }
    | none => none

/-- Anchored match with sufficient fuel (every recursive step of `tmF`
strictly decreases `2 * rem.length + toks.length`). -/
def tryMatch (toks : List Tok) (rem : List Char) (prev : Option Char) : Option MRes :=
  tmF (2 * rem.length + toks.length + 1) toks rem prev 0

/-- `re.findall` for a groupless pattern: scan start positions left to right,
record each match and resume after it (non-overlapping); on failure advance
one character.  A zero-width match advances one character after recording. -/
def findAllAux : Nat → List Tok → List Char → Option Char → List String
  | 0, _, _, _ => []
  | fuel + 1, toks, rem, prev =>
    match tryMatch toks rem prev with
    | some r =>
      if r.consumed = 0 then
        match rem with
        | [] => [""]
        | c :: rest => "" :: findAllAux fuel toks rest (some c)
      else
        let matched := rem.take r.consumed
        String.mk matched ::
          findAllAux fuel toks (rem.drop r.consumed) (some (matched.getLastD ' '))
    | none =>
      match rem with
      | [] => []
      | c :: rest => findAllAux fuel toks rest (some c)

/-- `re.findall(pattern, s)` for a groupless pattern. -/
def reFindAll (toks : List Tok) (s : String) : List String :=
  findAllAux (s.data.length + 1) toks s.data none

/-- `re.search(pattern, s)` for a one-group pattern, returning
`match.group(1)`: first start position (left to right) with a match. -/
def searchAux : Nat → List Tok → List Char → Option Char → Option String
  | 0, _, _, _ => none
  | fuel + 1, toks, rem, prev =>
    match tryMatch toks rem prev with
    | some r =>
      match r.gs, r.ge with
      | some gs, some ge => some (String.mk ((rem.drop gs).take (ge - gs)))
      | _, _ => none
    | none =>
      match rem with
      | [] => none
      | c :: rest => searchAux fuel toks rest (some c)

/-- `re.search(pattern, s).group(1)` (`none` when there is no match). -/
def reSearchG (toks : List Tok) (s : String) : Option String :=
  searchAux (s.data.length + 1) toks s.data none

/-- Case-insensitive literal character (the patterns use `re.IGNORECASE`). -/
def ciEq (c : Char) : Char → Bool := fun x => x.toLower == c.toLower

/-- Compile a literal string into case-insensitive tokens. -/
def litToks (s : String) : List Tok := s.data.map (fun c => Tok.one (ciEq c))

/-- `[^,.]` — any character other than a comma or a period. -/
def notCommaDot (c : Char) : Bool := !(c == ',' || c == '.')

/-- `[A-Z]` under `re.IGNORECASE` — any ASCII letter. -/
def letterClass (c : Char) : Bool := ('A' ≤ c && c ≤ 'Z') || ('a' ≤ c && c ≤ 'z')

/-- `.` — any character except a newline. -/
def dotClass (c : Char) : Bool := c != '\n'

/-- `[A-Za-z0-9._%+-]` — local part of the email pattern. -/
def emailLocalClass (c : Char) : Bool :=
  letterClass c || isDigitChar c || c == '.' || c == '_' || c == '%' || c == '+' || c == '-'

/-- `[A-Za-z0-9.-]` — domain part of the email pattern. -/
def emailDomainClass (c : Char) : Bool :=
  letterClass c || isDigitChar c || c == '.' || c == '-'

/-- `[A-Z|a-z]` — the TLD class of the email pattern (the literal `|` is part
of the class in the source regex). -/
def emailTldClass (c : Char) : Bool := letterClass c || c == '|'

/-- The email pattern of `ConversationFlowManager.__init__`:
`\b[A-Za-z0-9._%+-]+@[A-Za-z0-9.-]+\.[A-Z|a-z]{2,}\b`. -/
def emailPattern : List Tok :=
  [.wb, .one emailLocalClass, .star emailLocalClass, .one (fun c => c == '@'),
   .one emailDomainClass, .star emailDomainClass, .one (fun c => c == '.'),
   .one emailTldClass, .one emailTldClass, .star emailTldClass, .wb]

/-- `ConversationFlowManager._extract_emails` up to the `list(set(...))`
dedup step: the raw `re.findall` matches, in match order. -/
def extract_emails_matches (s : String) : List String := reFindAll emailPattern s

/-- Python `list(set(l))` for string lists: the distinct elements of `l`,
each exactly once, in an order the language does not specify (string hashing
is randomized).  A function `f` is a valid model of it iff its output is a
permutation of `l.dedup`. -/
def ValidSetList (f : List String → List String) : Prop :=
  ∀ l : List String, (f l).Perm l.dedup

/-! ### Keyword classifiers and entity extractors of `conversation_manager.py` -/

/-- `_is_email_request` keyword test (applied to the lowered message). -/
def is_email_request (message : String) : Bool :=
  ["email", "send me", "mail me", "information", "details", "send"].any
    (fun k => strIn k message)

/-- `_is_callback_request`. -/
def is_callback_request (message : String) : Bool :=
  ["callback", "call back", "call me", "schedule", "call", "phone"].any
    (fun k => strIn k message)

/-- `_is_pharmacy_introduction`. -/
def is_pharmacy_introduction (message : String) : Bool :=
  ["pharmacy", "calling from", "i\x27m from", "located", "we fill", "prescriptions"].any
    (fun k => strIn k message)

/-- `_is_pricing_inquiry`. -/
def is_pricing_inquiry (message : String) : Bool :=
  ["pricing", "price", "cost", "rates", "volume", "discount", "competitive"].any
    (fun k => strIn k message)

/-- `_is_greeting`. -/
def is_greeting (message : String) : Bool :=
  ["hello", "hi", "hey", "good morning", "good afternoon"].any
    (fun k => strIn k message)

/-- `_extract_time_preference`: first literal pattern contained in the
(lowered) message, in list order. -/
def extract_time_preference (message : String) : Option String :=
  ["tomorrow morning", "tomorrow afternoon", "tomorrow",
   "this afternoon", "this morning", "next week",
   "monday", "tuesday", "wednesday", "thursday", "friday"].find?
    (fun p => strIn p message)

/-- Python `str.strip()`: remove ASCII whitespace from both ends. -/
def pyStrip (s : String) : String :=
  String.mk (((s.data.dropWhile isSpaceChar).reverse.dropWhile isSpaceChar).reverse)

/-- The four `name_patterns` of `_extract_pharmacy_info`, compiled. -/
def pharmacyNamePatterns : List (List Tok) :=
  [litToks "calling from " ++ [.gopen, .one notCommaDot, .star notCommaDot, .gclose],
   litToks "i\x27m from " ++ [.gopen, .one notCommaDot, .star notCommaDot, .gclose],
   litToks "at " ++ [.gopen, .one notCommaDot, .star notCommaDot] ++ litToks "pharmacy" ++
     [.gclose],
   [.gopen, .star notCommaDot] ++ litToks "pharmacy" ++ [.star notCommaDot, .gclose]]

/-- The three `location_patterns` of `_extract_pharmacy_info`, compiled
(`[A-Z]{2}` matches any letters under `re.IGNORECASE`). -/
def locationPatterns : List (List Tok) :=
  [litToks "in " ++ [.gopen, .one notCommaDot, .star notCommaDot, .opt (fun c => c == ','),
     .star isSpaceChar, .one letterClass, .one letterClass, .gclose],
   litToks "located in " ++ [.gopen, .one notCommaDot, .star notCommaDot, .gclose],
   litToks "from " ++ [.gopen, .one notCommaDot, .star notCommaDot, .opt (fun c => c == ','),
     .star isSpaceChar, .one letterClass, .one letterClass, .gclose]]

/-- `_extract_pharmacy_info`: first matching name pattern and first matching
location pattern, groups stripped; missing kinds are simply absent. -/
def extract_pharmacy_info (message : String) : Entities :=
  (match pharmacyNamePatterns.findSome? (fun t => reSearchG t message) with
   | some g => [("pharmacy_name", EVal.s (pyStrip g))]
   | none => []) ++
  (match locationPatterns.findSome? (fun t => reSearchG t message) with
   | some g => [("location", EVal.s (pyStrip g))]
   | none => [])

/-- The group `(\d+,?\d*)` common to the volume patterns. -/
def volGroup : List Tok :=
  [.gopen, .one isDigitChar, .star isDigitChar, .opt (fun c => c == ','),
   .star isDigitChar, .gclose]

/-- The four `patterns` of `_extract_rx_volume`, compiled. -/
def rxVolumePatterns : List (List Tok) :=
  [volGroup ++ [.star isSpaceChar] ++ litToks "prescriptions",
   volGroup ++ [.star isSpaceChar] ++ litToks "rx",
   litToks "volume" ++ [.starNG dotClass] ++ volGroup,
   litToks "fill" ++ [.starNG dotClass] ++ volGroup]

/-- Python `int(str)` on a digits-only string (`none` models `ValueError`). -/
def parseIntOpt (s : String) : Option Nat :=
  if s.isEmpty || !s.data.all isDigitChar then none
  else some (s.data.foldl (fun a c => a * 10 + (c.toNat - '0'.toNat)) 0)

/-- `_extract_rx_volume`: first pattern whose group, with commas removed,
parses as an integer; a `ValueError` falls through to the next pattern. -/
def extract_rx_volume (message : String) : Option Nat :=
  rxVolumePatterns.findSome? (fun t =>
    (reSearchG t message).bind (fun g =>
      parseIntOpt (String.mk (g.data.filter (fun c => c != ',')))))

/-- The dict value stored under `preferred_time`: the extracted time, or the
Python `None` when `_extract_time_preference` found nothing. -/
def timeEVal : Option String → EVal
  | some t => EVal.s t
  | none => EVal.null

/-- The analysis dict of `analyze_user_message` (for the empty message the
source returns a dict without a `suggested_actions` key; it is modelled as
the empty list, which no consumer distinguishes). -/
structure Analysis where
  intent : String
  entities : Entities
  confidence : ℚ
  suggested_actions : List String
deriving DecidableEq, Repr

/-- `ConversationFlowManager.analyze_user_message`, parameterized by a model
`f` of Python's `list(set(...))` (see `ValidSetList`).  `st` is the
manager's current session state (read for `has_email`). -/
def analyze (f : List String → List String) (st : ConversationState) (message : String) :
    Analysis :=
  if message = "" then
    { intent := "unclear", entities := [], confidence := 0, suggested_actions := [] }
  else
    let message_lower := lowerStr message
    let emails := f (extract_emails_matches message)
    let ents0 : Entities :=
      match emails with
      | [] => []
      | e :: _ => [("email", EVal.s e)]
    if is_email_request message_lower then
      { intent := "request_email", confidence := 0.8, entities := ents0,
        suggested_actions :=
          if emails.isEmpty && !st.has_email then ["ask_for_email"] else [] }
    else if is_callback_request message_lower then
      { intent := "request_callback", confidence := 0.8,
        entities := dictInsert "preferred_time"
          (timeEVal (extract_time_preference message_lower)) ents0,
        suggested_actions := [] }
    else if is_pharmacy_introduction message_lower then
      { intent := "pharmacy_introduction", confidence := 0.9,
        entities := dictUpdate ents0 (extract_pharmacy_info message),
        suggested_actions := [] }
    else if is_pricing_inquiry message_lower then
      { intent := "pricing_inquiry", confidence := 0.7,
        entities :=
          match extract_rx_volume message with
          | some v => if v != 0 then dictInsert "rx_volume" (EVal.n v) ents0 else ents0
          | none => ents0,
        suggested_actions := [] }
    else if is_greeting message_lower then
      { intent := "greeting", confidence := 0.6, entities := ents0, suggested_actions := [] }
    else
      { intent := "general_inquiry", confidence := 0.5, entities := ents0,
        suggested_actions := [] }

/-! ### Lead update, strategy engine, action handler, chatbot pipeline -/

/-- `ConversationFlowManager.update_lead_data`: write each recognized entity
key into the corresponding `LeadData` field (assignment of whatever value the
dict holds; for keys produced by `analyze` the values have the field's type —
strings for the text fields, an integer for `rx_volume` — and `EVal.null`
never reaches these keys, so the cross-type cases below are unreachable and
modelled by the closest dynamic behaviour: `null` clears the field, a number
assigned to a text field stores its decimal rendering). -/
def update_lead_data (st : ConversationState) (entities : Entities) : ConversationState :=
  match st.lead_data with
  | none => st
  | some lead0 =>
    let setStr : Option String → String → Option String := fun old k =>
      match dictGet k entities with
      | some (.s v) => some v
      | some (.n v) => some (toString v)
      | some .null => none
      | none => old
    let lead1 :=
      { lead0 with
        email := setStr lead0.email "email",
        pharmacy_name := setStr lead0.pharmacy_name "pharmacy_name",
        location := setStr lead0.location "location",
        contact_person := setStr lead0.contact_person "contact_person",
        rx_volume :=
          match dictGet "rx_volume" entities with
          | some (.n v) => some v
          | some (.s v) => parseIntOpt v
          | some .null => none
          | none => lead0.rx_volume }
    { st with lead_data := some lead1 }

/-- The strategy dict of `determine_response_strategy`. -/
structure Strategy where
  response_type : String
  priority_actions : List String
  context_hints : List String
  personalization_level : String
deriving DecidableEq, Repr

/-- `ConversationFlowManager.determine_response_strategy` (the manager's
`self.state` is `st` and is always set on this path, so the `if self.state`
guards are taken). -/
def determine_response_strategy (st : ConversationState) (a : Analysis) : Strategy :=
  let s0 : Strategy :=
    { response_type := "conversational", priority_actions := [],
      context_hints := [], personalization_level := "medium" }
  let s1 :=
    if a.intent = "request_email" then
      if !st.has_email then
        { s0 with response_type := "ask_for_email", priority_actions := ["collect_email"] }
      else
        { s0 with response_type := "send_email", priority_actions := ["send_email"] }
    else if a.intent = "request_callback" then
      let base :=
        { s0 with response_type := "schedule_callback",
                  priority_actions := ["schedule_callback"] }
      match dictGet "preferred_time" a.entities with
      | some v =>
        { base with context_hints := base.context_hints ++ ["preferred_time: " ++ v.pyStr] }
      | none => base
    else if a.intent = "pharmacy_introduction" then
      { s0 with response_type := "acknowledge_intro",
                priority_actions := ["update_lead_data", "assess_fit"],
                personalization_level := "high" }
    else if a.intent = "pricing_inquiry" then
      let base :=
        { s0 with response_type := "pricing_discussion",
                  priority_actions := ["assess_volume", "present_value_prop"] }
      if st.pharmacy_data.isSome then { base with personalization_level := "high" } else base
    else s0
  if st.is_known_pharmacy then
    { s1 with context_hints := s1.context_hints ++
        ["known_pharmacy",
         "pharmacy_type: " ++
           (match st.pharmacy_data with
            | some p => p.pharmacy_type.value
            | none => "")] }
  else
    let hints := s1.context_hints ++ ["new_lead"]
    match st.lead_data with
    | some l =>
      { s1 with context_hints :=
          hints ++ ["lead_completeness: " ++ toString l.completion_percentage ++ "%"] }
    | none => { s1 with context_hints := hints }

/-- The keyword arguments passed to `ActionHandler.execute_action`.  A field
is `none` when the corresponding keyword was not passed at all; `email` and
`preferred_time` carry the (possibly `None`-valued) entity the chatbot passes. -/
structure Kwargs where
  email : Option EVal := none
  preferred_time : Option EVal := none
  task_type : Option String := none
deriving Repr

/-- `ActionResult` of `action_handler.py` (the `data` payload and timestamp
are omitted: no modelled consumer reads them). -/
structure ActionResult where
  success : Bool
  message : String
deriving DecidableEq, Repr

/-- `_handle_send_email`: resolve the address (truthy keyword argument, else
the state's stored address), fail without one; the `send_email` mock always
returns `True`. -/
def handle_send_email (st : ConversationState) (kw : Kwargs) : ActionResult :=
  let email : Option String :=
    match kw.email with
    | some v => if v.truthy then some v.pyStr else st.email_address
    | none => st.email_address
  match email with
  | none => { success := false, message := "No email address available" }
  | some e =>
    if e.isEmpty then { success := false, message := "No email address available" }
    else { success := true, message := "Email sent successfully to " ++ e }

/-- `_handle_schedule_callback`: the scheduling mock always succeeds, and the
follow-up task is created by calling `_handle_create_follow_up` directly —
not through `execute_action`, so no `create_follow_up` action is recorded on
the state.  `kwargs.get('preferred_time', 'during business hours')` only
falls back when the keyword is absent; a `None` value is rendered as `None`. -/
def handle_schedule_callback (_st : ConversationState) (kw : Kwargs) : ActionResult :=
  let preferred_time :=
    match kw.preferred_time with
    | none => "during business hours"
    | some v => v.pyStr
  { success := true, message := "Callback scheduled for " ++ preferred_time }

/-- `_handle_log_lead`: fails without lead data; the logging mock succeeds. -/
def handle_log_lead (st : ConversationState) : ActionResult :=
  match st.lead_data with
  | none => { success := false, message := "No lead data to log" }
  | some _ => { success := true, message := "Lead information logged successfully" }

/-- `_handle_create_follow_up`: the task-creation mock always succeeds. -/
def handle_create_follow_up (_st : ConversationState) (_kw : Kwargs) : ActionResult :=
  { success := true, message := "Follow-up task created" }

/-- The three canned prompts of `_handle_ask_for_email`. -/
def askForEmailMessage (st : ConversationState) : String :=
  if st.messages.length > 3 then
    "To send you our comprehensive service information, I\x27ll need your email address. What\x27s the best email to reach you at?"
  else
    "I\x27d be happy to send you detailed information about our services! Could you please provide your email address so I can send you everything " ++
      st.current_pharmacy_name ++ " needs to know about Pharmesol?"

/-- `_handle_ask_for_email`. -/
def handle_ask_for_email (st : ConversationState) : ActionResult :=
  { success := true, message := askForEmailMessage st }

/-- `_handle_ask_for_callback_details`. -/
def handle_ask_for_callback_details : ActionResult :=
  { success := true,
    message := "I\x27d be happy to schedule a callback for you! What time works best - would you prefer morning or afternoon, and which day this week?" }

/-- The `action_map` keys of `ActionHandler.execute_action`. -/
def knownActionTypes : List String :=
  ["send_email", "schedule_callback", "log_lead", "create_follow_up",
   "ask_for_email", "ask_for_callback_details"]

/-- Dispatch to the individual handler (none of the handlers mutates the
state; the only state mutation in `execute_action` is `add_action`). -/
def dispatchAction (action_type : String) (st : ConversationState) (kw : Kwargs) :
    ActionResult :=
  if action_type = "send_email" then handle_send_email st kw
  else if action_type = "schedule_callback" then handle_schedule_callback st kw
  else if action_type = "log_lead" then handle_log_lead st
  else if action_type = "create_follow_up" then handle_create_follow_up st kw
  else if action_type = "ask_for_email" then handle_ask_for_email st
  else handle_ask_for_callback_details

/-- `ActionHandler.execute_action`: unknown types fail; on handler success
the action name is recorded on the state (the handler's internal
`action_history` is not modelled — no claim mentions it). -/
def execute_action (action_type : String) (st : ConversationState) (kw : Kwargs) :
    ActionResult × ConversationState :=
  if action_type ∉ knownActionTypes then
    ({ success := false, message := "Unknown action type: " ++ action_type }, st)
  else
    let result := dispatchAction action_type st kw
    (result, if result.success then st.add_action action_type else st)

/-- `ConversationFlowManager.start_conversation`. -/
def start_conversation (phone_number : String) (pharmacy_data : Option PharmacyData) :
    ConversationState :=
  { phone_number := phone_number,
    pharmacy_data := pharmacy_data,
    lead_data :=
      match pharmacy_data with
      | some _ => none
      | none => some { phone := phone_number },
    status := .active }

/-- The fallback variant used when no email has been collected. -/
def fallbackAskEmail : String :=
  "I\x27d be happy to help you with information about Pharmesol\x27s services. Could you please provide your email address so I can send you detailed information?"

/-- The fallback variant used when an email is already on file. -/
def fallbackSpecialist : String :=
  "Thank you for your interest in Pharmesol. Let me connect you with one of our specialists who can provide detailed information about our services. Would you prefer a callback or email follow-up?"

/-- `PharmacySalesChatbot._generate_fallback_response`. -/
def fallback_response (st : ConversationState) : String :=
  if !st.has_email then fallbackAskEmail else fallbackSpecialist

/-- `PharmacySalesChatbot._generate_llm_response`: the generative collaborator
outcome is a parameter; any failure is caught and converted to the
deterministic fallback. -/
def generate_llm_response (llm : Except Unit String) (st : ConversationState) : String :=
  match llm with
  | .ok text => text
  | .error _ => fallback_response st

/-- The chatbot state after the user message is appended and the lead data is
updated, just before the strategy decision and dispatch (lines 155–167 of
`chatbot.py`). -/
def pre_dispatch_state (f : List String → List String) (st : ConversationState)
    (user_message : String) : ConversationState :=
  let st1 := st.add_message "user" user_message
  let a := analyze f st1 user_message
  if !a.entities.isEmpty && st1.lead_data.isSome then update_lead_data st1 a.entities else st1

/-- `PharmacySalesChatbot._handle_message_with_strategy`. -/
def handle_message_with_strategy (llm : Except Unit String) (st : ConversationState)
    (a : Analysis) (strategy : Strategy) : String × ConversationState :=
  if strategy.response_type = "ask_for_email" then
    let (r, st') := execute_action "ask_for_email" st {}
    (r.message, st')
  else if strategy.response_type = "send_email" then
    let (r, st') := execute_action "send_email" st { email := dictGet "email" a.entities }
    if r.success then
      let st'' :=
        if !st'.is_known_pharmacy then (execute_action "log_lead" st' {}).2 else st'
      (r.message, st'')
    else
      ("I apologize, but I\x27m having trouble sending the email right now. Could you please provide your email address again?", st')
  else if strategy.response_type = "schedule_callback" then
    let (r, st') := execute_action "schedule_callback" st
      { preferred_time := some (match dictGet "preferred_time" a.entities with
          | some v => v
          | none => EVal.null) }
    (r.message, st')
  else
    (generate_llm_response llm st, st)

/-- Everything `process_message` produces in one turn: the returned response,
the final state, and (exposed for verification) the analysis and strategy
computed for the turn. -/
structure ProcessOutcome where
  response : String
  state : ConversationState
  analysis : Analysis
  strategy : Strategy
deriving Repr

/-- The analysis computed for one turn of `process_message`. -/
def turn_analysis (f : List String → List String) (st : ConversationState)
    (user_message : String) : Analysis :=
  analyze f (st.add_message "user" user_message) user_message

/-- The response strategy decided for one turn of `process_message`. -/
def turn_strategy (f : List String → List String) (st : ConversationState)
    (user_message : String) : Strategy :=
  determine_response_strategy (pre_dispatch_state f st user_message)
    (turn_analysis f st user_message)

/-- `PharmacySalesChatbot.process_message`, parameterized by the
`list(set(...))` model `f` and the generative-collaborator outcome `llm`. -/
def process_message (f : List String → List String) (llm : Except Unit String)
    (st : ConversationState) (user_message : String) : ProcessOutcome :=
  let a := turn_analysis f st user_message
  let st2 := pre_dispatch_state f st user_message
  let strategy := turn_strategy f st user_message
  let pr := handle_message_with_strategy llm st2 a strategy
  { response := pr.1,
    state := pr.2.add_message "assistant" pr.1,
    analysis := a,
    strategy := strategy }

/-- The session-mutating operations a conversation can perform after
`start_conversation` (claim C1 quantifies over sequences of these). -/
inductive SessionOp where
  | addMsg (role content : String)
  | addAct (name : String)
  | updateLead (entities : Entities)

/-- Apply one session operation. -/
def applyOp (st : ConversationState) : SessionOp → ConversationState
  | .addMsg role content => st.add_message role content
  | .addAct name => st.add_action name
  | .updateLead entities => update_lead_data st entities

/-- Apply a sequence of session operations, left to right. -/
def runOps (st : ConversationState) : List SessionOp → ConversationState
  | [] => st
  | op :: rest => runOps (applyOp st op) rest

/-- Email availability in the sense of claim C3's wording: a truthy address
on the pharmacy record, on the lead data, or in the current message's
extracted `email` entity. -/
def emailAvailableB (st : ConversationState) (a : Analysis) : Bool :=
  st.has_email ||
  (match dictGet "email" a.entities with
   | some v => v.truthy
   | none => false)

/-- A fresh unknown-caller session shared by the concrete witnesses below. -/
def stW : ConversationState := start_conversation "+15551234567" none

/-- The Scenario B message of the spec (claim C2). -/
def msgB : String :=
  "Hi, I\x27m calling from MedCare Pharmacy, we fill about 8,000 prescriptions. Email me at ops@medcare.com"

/-- Scenario B executed: unknown caller `+15559998888`, then `msgB` processed
(the generative collaborator is unused on this path). -/
def outB : ProcessOutcome :=
  process_message List.dedup (Except.error ()) (start_conversation "+15559998888" none) msgB

/-- The Scenario D message of the spec (claim C5). -/
def msgD : String := "call me back tomorrow afternoon"

/-- Scenario D executed on an existing unknown-caller session. -/
def outD : ProcessOutcome := process_message List.dedup (Except.error ()) stW msgD

/-! ## Theorems -/

/-- `List.dedup` itself is a valid model of Python `list(set(...))`. -/
theorem validSetList_dedup : ValidSetList List.dedup := fun _ => List.Perm.refl _

/-- Reversed dedup is also a valid model of Python `list(set(...))`. -/
theorem validSetList_revDedup : ValidSetList (fun l => l.dedup.reverse) := fun l =>
  List.reverse_perm l.dedup

/-- No session operation changes the stored pharmacy record. -/
theorem applyOp_pharmacy (st : ConversationState) (op : SessionOp) :
    (applyOp st op).pharmacy_data = st.pharmacy_data := by
  cases op with
  | addMsg r c => rfl
  | addAct a =>
    show (st.add_action a).pharmacy_data = st.pharmacy_data
    unfold ConversationState.add_action
    split <;> rfl
  | updateLead e =>
    show (update_lead_data st e).pharmacy_data = st.pharmacy_data
    rcases hsl : st.lead_data with _ | lead <;> simp [update_lead_data, hsl]

/-- No session operation changes whether lead data is present. -/
theorem applyOp_lead_isSome (st : ConversationState) (op : SessionOp) :
    (applyOp st op).lead_data.isSome = st.lead_data.isSome := by
  cases op with
  | addMsg r c => rfl
  | addAct a =>
    show (st.add_action a).lead_data.isSome = st.lead_data.isSome
    unfold ConversationState.add_action
    split <;> rfl
  | updateLead e =>
    show (update_lead_data st e).lead_data.isSome = st.lead_data.isSome
    rcases hsl : st.lead_data with _ | lead <;> simp [update_lead_data, hsl]

/-- Sequences of session operations keep the pharmacy record intact. -/
theorem runOps_pharmacy (ops : List SessionOp) :
    ∀ st : ConversationState, (runOps st ops).pharmacy_data = st.pharmacy_data := by
  induction ops with
  | nil => intro st; rfl
  | cons op rest ih =>
    intro st
    show (runOps (applyOp st op) rest).pharmacy_data = _
    rw [ih, applyOp_pharmacy]

/-- Sequences of session operations keep lead-data presence intact. -/
theorem runOps_lead_isSome (ops : List SessionOp) :
    ∀ st : ConversationState, (runOps st ops).lead_data.isSome = st.lead_data.isSome := by
  induction ops with
  | nil => intro st; rfl
  | cons op rest ih =>
    intro st
    show (runOps (applyOp st op) rest).lead_data.isSome = _
    rw [ih, applyOp_lead_isSome]

/-- C1: after `start_conversation(phone, pharmacy_data)` and any sequence of
addMessage/addAction/update_lead_data operations, the pharmacy record is
exactly the one given at start, lead data is present iff no record was
given, and exactly one of {pharmacy record present, lead data present}
holds. -/
theorem claim1_session_exclusivity (phone : String) (pd : Option PharmacyData)
    (ops : List SessionOp) :
    (runOps (start_conversation phone pd) ops).pharmacy_data = pd ∧
    (runOps (start_conversation phone pd) ops).lead_data.isSome = pd.isNone ∧
    (runOps (start_conversation phone pd) ops).pharmacy_data.isSome
      = !(runOps (start_conversation phone pd) ops).lead_data.isSome := by
  have hp := runOps_pharmacy ops (start_conversation phone pd)
  have hl := runOps_lead_isSome ops (start_conversation phone pd)
  rw [hp, hl]
  cases pd <;> simp [start_conversation]

/-- C8: `completion_percentage` is 20 times the number of populated tracked
fields (Python truthiness: `None`, `""` and `0` count as unpopulated), hence
always one of 0, 20, 40, 60, 80, 100. -/
theorem claim8_completion_percentage (l : LeadData) :
    l.completion_percentage = 20 * l.completedCount ∧
    l.completion_percentage ∈ [0, 20, 40, 60, 80, 100] := by
  have hc : l.completedCount ≤ 5 := by
    unfold LeadData.completedCount
    exact le_trans (List.count_le_length _ _) (by simp)
  unfold LeadData.completion_percentage
  revert hc
  generalize l.completedCount = c
  intro hc
  interval_cases c <;> exact ⟨by decide, by decide⟩

/-- After `add_action a`, the name `a` is recorded. -/
theorem add_action_mem (st : ConversationState) (a : String) :
    a ∈ (st.add_action a).actions_taken := by
  unfold ConversationState.add_action
  split
  · assumption
  · simp

/-- `add_action` is idempotent as a state transformer. -/
theorem add_action_idem (st : ConversationState) (a : String) :
    (st.add_action a).add_action a = st.add_action a := by
  have h := add_action_mem st a
  have hdef : (st.add_action a).add_action a =
      if a ∈ (st.add_action a).actions_taken then st.add_action a
      else { st.add_action a with
             actions_taken := (st.add_action a).actions_taken ++ [a] } := rfl
  rw [hdef, if_pos h]

/-- C10: `add_action` is idempotent — applying it any positive number of
times equals applying it once; a name not yet present ends up with exactly
one occurrence; and the existing actions list is only ever extended at the
end (insertion order of distinct names is preserved). -/
theorem claim10_add_action_idempotent (st : ConversationState) (a : String) (n : Nat) :
    ((fun s => ConversationState.add_action s a)^[n + 1] st = st.add_action a) ∧
    (a ∉ st.actions_taken → (st.add_action a).actions_taken.count a = 1) ∧
    ((st.add_action a).actions_taken = st.actions_taken ∨
      (st.add_action a).actions_taken = st.actions_taken ++ [a]) := by
  refine ⟨?_, ?_, ?_⟩
  · induction n with
    | zero => rfl
    | succ m ih => rw [Function.iterate_succ_apply', ih, add_action_idem]
  · intro h
    unfold ConversationState.add_action
    rw [if_neg h, List.count_append, List.count_eq_zero.mpr h]
    simp
  · unfold ConversationState.add_action
    split
    · exact Or.inl rfl
    · exact Or.inr rfl

/-- C9: the intent rules form an ordered decision list with the email rule
first: any message whose lowering contains both the `"email"` keyword and the
`"callback"` keyword classifies as `request_email` with confidence 0.8, never
as `request_callback`. -/
theorem claim9_email_before_callback (f : List String → List String)
    (st : ConversationState) (msg : String)
    (h1 : strIn "email" (lowerStr msg) = true)
    (h2 : strIn "callback" (lowerStr msg) = true) :
    (analyze f st msg).intent = "request_email" ∧
    (analyze f st msg).confidence = 0.8 ∧
    (analyze f st msg).intent ≠ "request_callback" := by
  have hne : ¬ (msg = "") := by
    intro he
    subst he
    exact absurd h1 (by decide)
  have hreq : is_email_request (lowerStr msg) = true := by
    unfold is_email_request
    simp only [List.any_cons, h1, Bool.true_or]
  unfold analyze
  rw [if_neg hne]
  simp only [hreq, if_true]
  exact ⟨trivial, trivial, by decide⟩

/-- Witness for C9 at a concrete message containing both keywords. -/
theorem claim9_witness :
    (analyze List.dedup stW "email me or give me a callback").intent = "request_email" ∧
    (analyze List.dedup stW "email me or give me a callback").confidence = 0.8 ∧
    (analyze List.dedup stW "email me or give me a callback").intent ≠ "request_callback" :=
  claim9_email_before_callback List.dedup stW "email me or give me a callback"
    (by decide) (by decide)

/-- `update_lead_data` only touches the lead record: message history is
unchanged. -/
theorem update_lead_messages (st : ConversationState) (e : Entities) :
    (update_lead_data st e).messages = st.messages := by
  rcases hsl : st.lead_data with _ | lead <;> simp [update_lead_data, hsl]

/-- `update_lead_data` leaves the recorded actions unchanged. -/
theorem update_lead_actions (st : ConversationState) (e : Entities) :
    (update_lead_data st e).actions_taken = st.actions_taken := by
  rcases hsl : st.lead_data with _ | lead <;> simp [update_lead_data, hsl]

/-- Before dispatch, the history is the old history plus the user turn. -/
theorem pre_dispatch_messages (f : List String → List String) (st : ConversationState)
    (m : String) :
    (pre_dispatch_state f st m).messages
      = st.messages ++ [{ role := "user", content := m }] := by
  unfold pre_dispatch_state
  dsimp only
  split
  · rw [update_lead_messages]; rfl
  · rfl

/-- Before dispatch, no action has been recorded for the turn yet. -/
theorem pre_dispatch_actions (f : List String → List String) (st : ConversationState)
    (m : String) :
    (pre_dispatch_state f st m).actions_taken = st.actions_taken := by
  unfold pre_dispatch_state
  dsimp only
  split
  · rw [update_lead_actions]; rfl
  · rfl

/-- C7: when the decided strategy is conversational and the generative
collaborator fails, `process_message` still returns normally (the error is
absorbed): the response is the deterministic fallback of the turn state —
the ask-for-email variant without a collected email, the route-to-specialist
variant with one — no action is recorded, and the history gains exactly the
user turn and one assistant turn. -/
theorem claim7_llm_failure_fallback (f : List String → List String)
    (st : ConversationState) (msg : String)
    (h : (process_message f (Except.error ()) st msg).strategy.response_type
          = "conversational") :
    (process_message f (Except.error ()) st msg).response
        = fallback_response (pre_dispatch_state f st msg) ∧
    fallback_response (pre_dispatch_state f st msg)
        = (if (pre_dispatch_state f st msg).has_email then fallbackSpecialist
           else fallbackAskEmail) ∧
    (process_message f (Except.error ()) st msg).state.messages
        = st.messages ++
            [{ role := "user", content := msg },
             { role := "assistant",
               content := (process_message f (Except.error ()) st msg).response }] ∧
    (process_message f (Except.error ()) st msg).state.actions_taken
        = st.actions_taken := by
  have hs : (turn_strategy f st msg).response_type = "conversational" := h
  have hd : handle_message_with_strategy (Except.error ()) (pre_dispatch_state f st msg)
      (turn_analysis f st msg) (turn_strategy f st msg)
      = (fallback_response (pre_dispatch_state f st msg), pre_dispatch_state f st msg) := by
    unfold handle_message_with_strategy
    rw [hs]
    simp [generate_llm_response]
  have hresp : (process_message f (Except.error ()) st msg).response
      = fallback_response (pre_dispatch_state f st msg) := by
    show (handle_message_with_strategy (Except.error ()) (pre_dispatch_state f st msg)
      (turn_analysis f st msg) (turn_strategy f st msg)).1 = _
    rw [hd]
  refine ⟨hresp, ?_, ?_, ?_⟩
  · unfold fallback_response
    cases hb : (pre_dispatch_state f st msg).has_email <;> simp [hb]
  · rw [hresp]
    show ((handle_message_with_strategy (Except.error ()) (pre_dispatch_state f st msg)
      (turn_analysis f st msg) (turn_strategy f st msg)).2.add_message "assistant"
        (handle_message_with_strategy (Except.error ()) (pre_dispatch_state f st msg)
          (turn_analysis f st msg) (turn_strategy f st msg)).1).messages = _
    rw [hd]
    show (pre_dispatch_state f st msg).messages ++ _ = _
    rw [pre_dispatch_messages]
    simp
  · show ((handle_message_with_strategy (Except.error ()) (pre_dispatch_state f st msg)
      (turn_analysis f st msg) (turn_strategy f st msg)).2.add_message "assistant"
        (handle_message_with_strategy (Except.error ()) (pre_dispatch_state f st msg)
          (turn_analysis f st msg) (turn_strategy f st msg)).1).actions_taken = _
    rw [hd]
    show (pre_dispatch_state f st msg).actions_taken = _
    rw [pre_dispatch_actions]

/-- Witness for C7: a concrete turn whose strategy is conversational. -/
theorem claim7_witness :
    (process_message List.dedup (Except.error ()) stW "ok").response
        = fallback_response (pre_dispatch_state List.dedup stW "ok") ∧
    fallback_response (pre_dispatch_state List.dedup stW "ok")
        = (if (pre_dispatch_state List.dedup stW "ok").has_email then fallbackSpecialist
           else fallbackAskEmail) ∧
    (process_message List.dedup (Except.error ()) stW "ok").state.messages
        = stW.messages ++
            [{ role := "user", content := "ok" },
             { role := "assistant",
               content := (process_message List.dedup (Except.error ()) stW "ok").response }] ∧
    (process_message List.dedup (Except.error ()) stW "ok").state.actions_taken
        = stW.actions_taken :=
  claim7_llm_failure_fallback List.dedup stW "ok" (by decide)

/-- Counterexample to C2 as stated: processing the Scenario B message leaves
`LeadData.rx_volume` unset (not 8000) and `LeadData.pharmacy_name` unset (so
it does not contain "MedCare") — the `request_email` intent wins the ordered
decision list, and `analyze_user_message` extracts pharmacy name and volume
only under the `pharmacy_introduction` intent. -/
theorem claim2_counterexample :
    outB.state.lead_data.map (fun l => l.rx_volume) = some none ∧
    ¬ (outB.state.lead_data.map (fun l => l.rx_volume) = some (some 8000)) ∧
    outB.state.lead_data.map (fun l => l.pharmacy_name) = some none := by
  decide

/-- C2 amended: Scenario B leaves `LeadData.email == "ops@medcare.com"` and
the decided response type is `send_email` (the entity email is merged into
the lead before the decision), but `LeadData.rx_volume` and
`LeadData.pharmacy_name` remain unset because the `request_email` intent
skips pharmacy-info and volume extraction. -/
theorem claim2_amended :
    outB.state.lead_data.map (fun l => l.email) = some (some "ops@medcare.com") ∧
    outB.strategy.response_type = "send_email" ∧
    outB.strategy.priority_actions = ["send_email"] ∧
    outB.analysis.intent = "request_email" ∧
    outB.state.lead_data.map (fun l => l.rx_volume) = some none ∧
    outB.state.lead_data.map (fun l => l.pharmacy_name) = some none ∧
    outB.response = "Email sent successfully to ops@medcare.com" := by
  decide

/-- Counterexample to C5 as stated: after processing Scenario D the session's
actions-taken sequence contains `schedule_callback` but zero occurrences of
`create_follow_up` — `_handle_schedule_callback` calls
`_handle_create_follow_up` directly, bypassing `execute_action`, which is the
only place that records actions on the state. -/
theorem claim5_counterexample :
    outD.state.actions_taken = ["schedule_callback"] ∧
    ¬ (outD.state.actions_taken.count "create_follow_up" = 1) := by
  decide

/-- C5 amended: Scenario D decides `schedule_callback` with the context hint
`preferred_time: tomorrow afternoon` and records exactly one
`schedule_callback` action, but no `create_follow_up` action (the follow-up
collaborator is invoked without being recorded on the session). -/
theorem claim5_amended :
    outD.strategy.response_type = "schedule_callback" ∧
    "preferred_time: tomorrow afternoon" ∈ outD.strategy.context_hints ∧
    outD.state.actions_taken.count "schedule_callback" = 1 ∧
    outD.state.actions_taken.count "create_follow_up" = 0 ∧
    outD.response = "Callback scheduled for tomorrow afternoon" := by
  decide

/-- Membership after a Python dict assignment: an entry of the result is the
assigned pair or an entry of the original dict. -/
theorem mem_dictInsert (k k' : String) (v v' : EVal) (d : Entities)
    (h : (k, v) ∈ dictInsert k' v' d) : (k = k' ∧ v = v') ∨ (k, v) ∈ d := by
  induction d with
  | nil =>
    simp only [dictInsert, List.mem_singleton, Prod.mk.injEq] at h
    exact Or.inl h
  | cons kv t ih =>
    obtain ⟨k2, v2⟩ := kv
    unfold dictInsert at h
    by_cases hk : k2 = k'
    · rw [if_pos hk] at h
      rcases List.mem_cons.mp h with h1 | h2
      · simp only [Prod.mk.injEq] at h1
        exact Or.inl h1
      · exact Or.inr (List.mem_cons_of_mem _ h2)
    · rw [if_neg hk] at h
      rcases List.mem_cons.mp h with h1 | h2
      · exact Or.inr (List.mem_cons.mpr (Or.inl h1))
      · rcases ih h2 with h3 | h4
        · exact Or.inl h3
        · exact Or.inr (List.mem_cons_of_mem _ h4)

/-- Membership after a Python dict update: an entry of the result comes from
the base dict or from the update. -/
theorem mem_dictUpdate (e : Entities) : ∀ (d : Entities) (k : String) (v : EVal),
    (k, v) ∈ dictUpdate d e → (k, v) ∈ d ∨ (k, v) ∈ e := by
  induction e with
  | nil => intro d k v h; exact Or.inl h
  | cons kv t ih =>
    intro d k v h
    have h' : (k, v) ∈ dictUpdate (dictInsert kv.1 kv.2 d) t := h
    rcases ih _ _ _ h' with h1 | h2
    · rcases mem_dictInsert _ _ _ _ _ h1 with ⟨hk, hv⟩ | h3
      · refine Or.inr (List.mem_cons.mpr (Or.inl ?_))
        rw [hk, hv]
      · exact Or.inl h3
    · exact Or.inr (List.mem_cons_of_mem _ h2)

/-- `dictGet` is unchanged by assigning a different key. -/
theorem dictGet_dictInsert_ne (k k' : String) (v' : EVal) (d : Entities) (h : ¬ (k' = k)) :
    dictGet k (dictInsert k' v' d) = dictGet k d := by
  induction d with
  | nil =>
    show (if k' = k then some v' else dictGet k []) = dictGet k []
    rw [if_neg h]
  | cons kv t ih =>
    obtain ⟨k2, v2⟩ := kv
    unfold dictInsert
    by_cases h2 : k2 = k'
    · rw [if_pos h2]
      show (if k' = k then some v' else dictGet k t) = if k2 = k then some v2 else dictGet k t
      rw [if_neg h, if_neg (by rw [h2]; exact h)]
    · rw [if_neg h2]
      show (if k2 = k then some v2 else dictGet k (dictInsert k' v' t))
        = if k2 = k then some v2 else dictGet k t
      by_cases h3 : k2 = k
      · rw [if_pos h3, if_pos h3]
      · rw [if_neg h3, if_neg h3]
        exact ih

/-- `dictGet` is unchanged by an update none of whose keys is `k`. -/
theorem dictGet_dictUpdate_ne (e : Entities) : ∀ (d : Entities) (k : String),
    (∀ kv ∈ e, ¬ (kv.1 = k)) → dictGet k (dictUpdate d e) = dictGet k d := by
  induction e with
  | nil => intro d k _; rfl
  | cons kv t ih =>
    intro d k h
    have h1 : dictGet k (dictUpdate (dictInsert kv.1 kv.2 d) t)
        = dictGet k (dictInsert kv.1 kv.2 d) :=
      ih _ _ (fun x hx => h x (List.mem_cons_of_mem _ hx))
    have h2 : dictGet k (dictInsert kv.1 kv.2 d) = dictGet k d :=
      dictGet_dictInsert_ne _ _ _ _ (h kv (List.mem_cons_self _ _))
    exact h1.trans h2

/-- Entries of the base entity dict of `analyze` (built from the extracted
emails): key `"email"`, value a string that is one of the regex matches. -/
theorem mem_ents0 (f : List String → List String) (msg : String) (hf : ValidSetList f)
    (k : String) (v : EVal)
    (hm : (k, v) ∈ (match f (extract_emails_matches msg) with
      | [] => ([] : Entities)
      | e :: _ => [("email", EVal.s e)])) :
    k = "email" ∧ ∃ e, v = EVal.s e ∧ e ∈ extract_emails_matches msg := by
  rcases he : f (extract_emails_matches msg) with _ | ⟨e, rest⟩
  · rw [he] at hm
    simp at hm
  · rw [he] at hm
    simp only [List.mem_singleton, Prod.mk.injEq] at hm
    refine ⟨hm.1, e, hm.2, ?_⟩
    have h1 : e ∈ f (extract_emails_matches msg) := by
      rw [he]; exact List.mem_cons_self _ _
    exact List.mem_dedup.mp ((hf (extract_emails_matches msg)).mem_iff.mp h1)

/-- Entries produced by `_extract_pharmacy_info` come from a successful
pattern search: a `pharmacy_name` entry exists only when one of the four name
patterns matched (and holds that group, stripped), a `location` entry only
when one of the three location patterns matched.  By contraposition, no
match for a kind means the key is absent from the extractor's output. -/
theorem mem_extract_pharmacy_info (msg : String) (k : String) (v : EVal)
    (h : (k, v) ∈ extract_pharmacy_info msg) :
    (k = "pharmacy_name" ∧ ∃ g, pharmacyNamePatterns.findSome? (fun t => reSearchG t msg)
        = some g ∧ v = EVal.s (pyStrip g)) ∨
    (k = "location" ∧ ∃ g, locationPatterns.findSome? (fun t => reSearchG t msg)
        = some g ∧ v = EVal.s (pyStrip g)) := by
  unfold extract_pharmacy_info at h
  rcases List.mem_append.mp h with h1 | h2
  · rcases hn : pharmacyNamePatterns.findSome? (fun t => reSearchG t msg) with _ | g
    · rw [hn] at h1; simp at h1
    · rw [hn] at h1
      simp only [List.mem_singleton, Prod.mk.injEq] at h1
      exact Or.inl ⟨h1.1, g, rfl, h1.2⟩
  · rcases hn : locationPatterns.findSome? (fun t => reSearchG t msg) with _ | g
    · rw [hn] at h2; simp at h2
    · rw [hn] at h2
      simp only [List.mem_singleton, Prod.mk.injEq] at h2
      exact Or.inr ⟨h2.1, g, rfl, h2.2⟩

/-- `dictGet` after assigning the same key returns the assigned value. -/
theorem dictGet_dictInsert_self (k : String) (v : EVal) (d : Entities) :
    dictGet k (dictInsert k v d) = some v := by
  induction d with
  | nil =>
    show (if k = k then some v else dictGet k []) = some v
    rw [if_pos rfl]
  | cons kv t ih =>
    obtain ⟨k2, v2⟩ := kv
    unfold dictInsert
    by_cases h2 : k2 = k
    · rw [if_pos h2]
      show (if k = k then some v else dictGet k t) = some v
      rw [if_pos rfl]
    · rw [if_neg h2]
      show (if k2 = k then some v2 else dictGet k (dictInsert k v t)) = some v
      rw [if_neg h2, ih]

/-- Counterexample to C4 as stated: for the message "call me" (a callback
request with no time expression) the entities dict maps the key
`preferred_time` to the Python `None` placeholder. -/
theorem claim4_counterexample :
    (analyze List.dedup stW "call me").intent = "request_callback" ∧
    ("preferred_time", EVal.null) ∈ (analyze List.dedup stW "call me").entities ∧
    dictGet "preferred_time" (analyze List.dedup stW "call me").entities
      = some EVal.null := by
  decide

/-- C4 amended: (i) every entry of the analysis entities dict is accounted
for by a successful extraction — `email` holds one of the message's regex
matches, `pharmacy_name` and `location` hold the stripped group of a
successful pattern search, `rx_volume` holds the successfully parsed nonzero
volume, and `preferred_time` holds exactly `timeEVal` of the extractor
result under the `request_callback` intent — so for every kind, no match
means the key is absent, except that `preferred_time` can hold the `None`
placeholder; and (ii) for every message classified `request_callback` the
`preferred_time` key is always present, mapped to the extractor result
(`None` when no time expression matches).  Extraction is total (the model is
a Lean function), so it never raises. -/
theorem claim4_amended (f : List String → List String) (st : ConversationState)
    (msg : String) (hf : ValidSetList f) :
    (∀ k v, (k, v) ∈ (analyze f st msg).entities →
      (k = "email" ∧ ∃ e, v = EVal.s e ∧ e ∈ extract_emails_matches msg) ∨
      (k = "preferred_time" ∧ (analyze f st msg).intent = "request_callback" ∧
        v = timeEVal (extract_time_preference (lowerStr msg))) ∨
      (k = "pharmacy_name" ∧ ∃ g, pharmacyNamePatterns.findSome? (fun t => reSearchG t msg)
          = some g ∧ v = EVal.s (pyStrip g)) ∨
      (k = "location" ∧ ∃ g, locationPatterns.findSome? (fun t => reSearchG t msg)
          = some g ∧ v = EVal.s (pyStrip g)) ∨
      (k = "rx_volume" ∧ ∃ n, ¬ n = 0 ∧ v = EVal.n n ∧ extract_rx_volume msg = some n)) ∧
    ((analyze f st msg).intent = "request_callback" →
      dictGet "preferred_time" (analyze f st msg).entities
        = some (timeEVal (extract_time_preference (lowerStr msg)))) := by
  constructor
  · intro k v hm
    by_cases hne : msg = ""
    · subst hne
      simp [analyze] at hm
    · unfold analyze at hm
      rw [if_neg hne] at hm
      dsimp only at hm
      by_cases h1 : is_email_request (lowerStr msg) = true
      · rw [if_pos h1] at hm
        dsimp only at hm
        exact Or.inl (mem_ents0 f msg hf k v hm)
      · rw [if_neg h1] at hm
        by_cases h2 : is_callback_request (lowerStr msg) = true
        · rw [if_pos h2] at hm
          dsimp only at hm
          have hint : (analyze f st msg).intent = "request_callback" := by
            unfold analyze
            rw [if_neg hne]
            dsimp only
            rw [if_neg h1, if_pos h2]
          rcases mem_dictInsert _ _ _ _ _ hm with ⟨hk, hv⟩ | hrest
          · exact Or.inr (Or.inl ⟨hk, hint, hv⟩)
          · exact Or.inl (mem_ents0 f msg hf k v hrest)
        · rw [if_neg h2] at hm
          by_cases h3 : is_pharmacy_introduction (lowerStr msg) = true
          · rw [if_pos h3] at hm
            dsimp only at hm
            rcases mem_dictUpdate _ _ _ _ hm with hbase | hinfo
            · exact Or.inl (mem_ents0 f msg hf k v hbase)
            · rcases mem_extract_pharmacy_info msg k v hinfo with hl | hr
              · exact Or.inr (Or.inr (Or.inl hl))
              · exact Or.inr (Or.inr (Or.inr (Or.inl hr)))
          · rw [if_neg h3] at hm
            by_cases h4 : is_pricing_inquiry (lowerStr msg) = true
            · rw [if_pos h4] at hm
              dsimp only at hm
              rcases hrx : extract_rx_volume msg with _ | n
              · rw [hrx] at hm
                dsimp only at hm
                exact Or.inl (mem_ents0 f msg hf k v hm)
              · rw [hrx] at hm
                dsimp only at hm
                by_cases hn0 : (n != 0) = true
                · rw [if_pos hn0] at hm
                  rcases mem_dictInsert _ _ _ _ _ hm with ⟨hk, hv⟩ | hrest
                  · exact Or.inr (Or.inr (Or.inr (Or.inr
                      ⟨hk, n, by simpa using hn0, hv, rfl⟩)))
                  · exact Or.inl (mem_ents0 f msg hf k v hrest)
                · rw [if_neg hn0] at hm
                  exact Or.inl (mem_ents0 f msg hf k v hm)
            · rw [if_neg h4] at hm
              by_cases h5 : is_greeting (lowerStr msg) = true
              · rw [if_pos h5] at hm
                dsimp only at hm
                exact Or.inl (mem_ents0 f msg hf k v hm)
              · rw [if_neg h5] at hm
                dsimp only at hm
                exact Or.inl (mem_ents0 f msg hf k v hm)
  · intro hint
    by_cases hne : msg = ""
    · subst hne
      simp [analyze] at hint
    · unfold analyze at hint ⊢
      rw [if_neg hne] at hint ⊢
      dsimp only at hint ⊢
      by_cases h1 : is_email_request (lowerStr msg) = true
      · rw [if_pos h1] at hint
        dsimp only at hint
        exact absurd hint (by decide)
      · rw [if_neg h1] at hint ⊢
        by_cases h2 : is_callback_request (lowerStr msg) = true
        · rw [if_pos h2]
          dsimp only
          exact dictGet_dictInsert_self _ _ _
        · rw [if_neg h2] at hint
          by_cases h3 : is_pharmacy_introduction (lowerStr msg) = true
          · rw [if_pos h3] at hint
            dsimp only at hint
            exact absurd hint (by decide)
          · rw [if_neg h3] at hint
            by_cases h4 : is_pricing_inquiry (lowerStr msg) = true
            · rw [if_pos h4] at hint
              dsimp only at hint
              exact absurd hint (by decide)
            · rw [if_neg h4] at hint
              by_cases h5 : is_greeting (lowerStr msg) = true
              · rw [if_pos h5] at hint
                dsimp only at hint
                exact absurd hint (by decide)
              · rw [if_neg h5] at hint
                dsimp only at hint
                exact absurd hint (by decide)

/-- Witness for C4 amended at "call me": its `preferred_time: None` entry is
accounted for by the `preferred_time` disjunct, and the callback intent
forces the key to be present with the extractor's (empty) result. -/
theorem claim4_amended_witness :
    (("preferred_time" = "email" ∧
        ∃ e, EVal.null = EVal.s e ∧ e ∈ extract_emails_matches "call me") ∨
      ("preferred_time" = "preferred_time" ∧
        (analyze List.dedup stW "call me").intent = "request_callback" ∧
        EVal.null = timeEVal (extract_time_preference (lowerStr "call me"))) ∨
      ("preferred_time" = "pharmacy_name" ∧
        ∃ g, pharmacyNamePatterns.findSome? (fun t => reSearchG t "call me")
          = some g ∧ EVal.null = EVal.s (pyStrip g)) ∨
      ("preferred_time" = "location" ∧
        ∃ g, locationPatterns.findSome? (fun t => reSearchG t "call me")
          = some g ∧ EVal.null = EVal.s (pyStrip g)) ∨
      ("preferred_time" = "rx_volume" ∧
        ∃ n, ¬ n = 0 ∧ EVal.null = EVal.n n ∧ extract_rx_volume "call me" = some n)) ∧
    dictGet "preferred_time" (analyze List.dedup stW "call me").entities
      = some (timeEVal (extract_time_preference (lowerStr "call me"))) :=
  ⟨(claim4_amended List.dedup stW "call me" validSetList_dedup).1 "preferred_time"
      EVal.null (by decide),
   (claim4_amended List.dedup stW "call me" validSetList_dedup).2 (by decide)⟩

/-- No entry of `_extract_pharmacy_info` uses the key `"email"`. -/
theorem pharmacy_info_keys_ne_email (msg : String) :
    ∀ kv ∈ extract_pharmacy_info msg, ¬ (kv.1 = "email") := by
  intro kv hkv
  obtain ⟨k, v⟩ := kv
  rcases mem_extract_pharmacy_info msg k v hkv with ⟨hk, _⟩ | ⟨hk, _⟩ <;>
    · show ¬ (k = "email")
      rw [hk]
      decide

/-- Counterexample to C6 as stated: Python's `list(set(...))` dedup step has
an unspecified order (string hashing is randomized), so for a message with
two distinct well-formed addresses the reported `email` entity need not be
the first token.  The reversed-dedup model is a valid `list(set(...))`
(`validSetList_revDedup`), yet on "a@b.com c@d.com" — whose matches, in
order, are ["a@b.com", "c@d.com"] — it reports "c@d.com", which differs from
the first token "a@b.com". -/
theorem claim6_counterexample :
    ValidSetList (fun l => l.dedup.reverse) ∧
    extract_emails_matches "a@b.com c@d.com" = ["a@b.com", "c@d.com"] ∧
    dictGet "email"
        (analyze (fun l => l.dedup.reverse) stW "a@b.com c@d.com").entities
      = some (EVal.s "c@d.com") ∧
    ¬ ("c@d.com" = "a@b.com") :=
  ⟨validSetList_revDedup, by decide, by decide, by decide⟩

/-- C6 amended: for every message with at least one well-formed email token
(i.e. a nonempty regex match list) and every valid `list(set(...))` model,
the analysis reports under `email` one of the matched tokens, case preserved
(the matcher copies characters verbatim); when the matches are all equal —
in particular when there is exactly one — it is exactly the first token.
Which of several distinct tokens is reported is unspecified. -/
theorem claim6_amended (f : List String → List String) (st : ConversationState)
    (msg : String) (hf : ValidSetList f) (h : ¬ (extract_emails_matches msg = [])) :
    ∃ e, dictGet "email" (analyze f st msg).entities = some (EVal.s e) ∧
      e ∈ extract_emails_matches msg ∧
      ((extract_emails_matches msg).dedup.length = 1 →
        e = (extract_emails_matches msg).headD "") := by
  have hne : ¬ (msg = "") := by
    intro hmsg
    exact h (by rw [hmsg]; rfl)
  have hfne : ¬ (f (extract_emails_matches msg) = []) := by
    intro hf0
    have hlen := (hf (extract_emails_matches msg)).length_eq
    rw [hf0] at hlen
    have hdn : (extract_emails_matches msg).dedup = [] :=
      List.eq_nil_of_length_eq_zero hlen.symm
    rw [List.dedup_eq_nil] at hdn
    exact h hdn
  rcases he : f (extract_emails_matches msg) with _ | ⟨e, rest⟩
  · exact absurd he hfne
  refine ⟨e, ?_, ?_, ?_⟩
  · unfold analyze
    rw [if_neg hne]
    dsimp only
    have hbase : dictGet "email"
        (match f (extract_emails_matches msg) with
          | [] => ([] : Entities)
          | e :: _ => [("email", EVal.s e)]) = some (EVal.s e) := by
      rw [he]
      simp [dictGet]
    by_cases h1 : is_email_request (lowerStr msg) = true
    · rw [if_pos h1]
      exact hbase
    · rw [if_neg h1]
      by_cases h2 : is_callback_request (lowerStr msg) = true
      · rw [if_pos h2]
        dsimp only
        rw [dictGet_dictInsert_ne _ _ _ _ (by decide)]
        exact hbase
      · rw [if_neg h2]
        by_cases h3 : is_pharmacy_introduction (lowerStr msg) = true
        · rw [if_pos h3]
          dsimp only
          rw [dictGet_dictUpdate_ne _ _ _ (pharmacy_info_keys_ne_email msg)]
          exact hbase
        · rw [if_neg h3]
          by_cases h4 : is_pricing_inquiry (lowerStr msg) = true
          · rw [if_pos h4]
            dsimp only
            rcases hrx : extract_rx_volume msg with _ | n
            · exact hbase
            · dsimp only
              by_cases hn0 : (n != 0) = true
              · rw [if_pos hn0]
                rw [dictGet_dictInsert_ne _ _ _ _ (by decide)]
                exact hbase
              · rw [if_neg hn0]
                exact hbase
          · rw [if_neg h4]
            by_cases h5 : is_greeting (lowerStr msg) = true
            · rw [if_pos h5]
              exact hbase
            · rw [if_neg h5]
              exact hbase
  · have h1 : e ∈ f (extract_emails_matches msg) := by
      rw [he]
      exact List.mem_cons_self _ _
    exact List.mem_dedup.mp ((hf (extract_emails_matches msg)).mem_iff.mp h1)
  · intro h1len
    obtain ⟨x, hx⟩ := List.length_eq_one.mp h1len
    have hperm := hf (extract_emails_matches msg)
    rw [hx] at hperm
    have hfl : f (extract_emails_matches msg) = [x] := List.perm_singleton.mp hperm
    rw [he] at hfl
    have hex : e = x ∧ rest = [] := by
      simpa using hfl
    rcases hms : extract_emails_matches msg with _ | ⟨m, tail⟩
    · exact absurd hms h
    · have hm1 : m ∈ extract_emails_matches msg := by
        rw [hms]
        exact List.mem_cons_self _ _
      have hm2 : m ∈ (extract_emails_matches msg).dedup := List.mem_dedup.mpr hm1
      rw [hx] at hm2
      have hmx : m = x := by simpa using hm2
      show e = m
      rw [hex.1, hmx]

/-- Witness for C6 amended at a concrete single-address message. -/
theorem claim6_amended_witness :
    ∃ e, dictGet "email" (analyze List.dedup stW "a@b.com").entities
        = some (EVal.s e) ∧
      e ∈ extract_emails_matches "a@b.com" ∧
      ((extract_emails_matches "a@b.com").dedup.length = 1 →
        e = (extract_emails_matches "a@b.com").headD "") :=
  claim6_amended List.dedup stW "a@b.com" validSetList_dedup (by decide)

/-- Counterexample to C3 as stated: a known-pharmacy session with no stored
email receives a `request_email` message that itself supplies an address
("please send me details at bob@x.com").  An email is available from the
current message's extracted entity, yet the decided response type is
`ask_for_email` — `determine_response_strategy` consults only
`state.has_email`, never the message entity.  So "ask_for_email iff no email
available from any of the three sources" fails. -/
theorem claim3_counterexample :
    (analyze List.dedup (start_conversation "+15551234567"
        (some { name := "Central Pharmacy", phone := "+15551234567" }))
        "please send me details at bob@x.com").intent = "request_email" ∧
    dictGet "email" (analyze List.dedup (start_conversation "+15551234567"
        (some { name := "Central Pharmacy", phone := "+15551234567" }))
        "please send me details at bob@x.com").entities = some (EVal.s "bob@x.com") ∧
    emailAvailableB (start_conversation "+15551234567"
        (some { name := "Central Pharmacy", phone := "+15551234567" }))
      (analyze List.dedup (start_conversation "+15551234567"
        (some { name := "Central Pharmacy", phone := "+15551234567" }))
        "please send me details at bob@x.com") = true ∧
    ¬ ((determine_response_strategy (start_conversation "+15551234567"
          (some { name := "Central Pharmacy", phone := "+15551234567" }))
        (analyze List.dedup (start_conversation "+15551234567"
          (some { name := "Central Pharmacy", phone := "+15551234567" }))
          "please send me details at bob@x.com")).response_type = "ask_for_email"
        ↔ emailAvailableB (start_conversation "+15551234567"
            (some { name := "Central Pharmacy", phone := "+15551234567" }))
          (analyze List.dedup (start_conversation "+15551234567"
            (some { name := "Central Pharmacy", phone := "+15551234567" }))
            "please send me details at bob@x.com") = false) := by
  decide

/-- C3 amended: for a `request_email` analysis the decision depends only on
the session's stored emails (`state.has_email`): `ask_for_email` with
`[collect_email]` exactly when `has_email` is false, else `send_email` with
`[send_email]`.  (In the full pipeline a lead session has the current
message's email entity merged into LeadData before this decision, so for
lead sessions the entity is covered indirectly; a known-pharmacy session's
message entity is not consulted.) -/
theorem claim3_amended (st : ConversationState) (a : Analysis)
    (h : a.intent = "request_email") :
    (determine_response_strategy st a).response_type
        = (if st.has_email then "send_email" else "ask_for_email") ∧
    (determine_response_strategy st a).priority_actions
        = (if st.has_email then ["send_email"] else ["collect_email"]) := by
  unfold determine_response_strategy
  simp only [h, if_true]
  cases hb : st.has_email <;>
    simp only [hb, Bool.not_true, Bool.not_false, if_true, if_false] <;>
    constructor <;>
    · dsimp only
      split <;> first
        | rfl
        | (split <;> rfl)

/-- Witness for C3 amended at a concrete lead session and analysis. -/
theorem claim3_amended_witness :
    (determine_response_strategy stW
        { intent := "request_email", entities := [], confidence := 0.8,
          suggested_actions := [] }).response_type
      = (if stW.has_email then "send_email" else "ask_for_email") ∧
    (determine_response_strategy stW
        { intent := "request_email", entities := [], confidence := 0.8,
          suggested_actions := [] }).priority_actions
      = (if stW.has_email then ["send_email"] else ["collect_email"]) :=
  claim3_amended stW
    { intent := "request_email", entities := [], confidence := 0.8,
      suggested_actions := [] } rfl

/-- Witness for C10 at a concrete session and action name. -/
theorem claim10_witness :
    ((fun s => ConversationState.add_action s "send_email")^[2] stW
        = stW.add_action "send_email") ∧
    ((stW.add_action "send_email").actions_taken.count "send_email" = 1) ∧
    ((stW.add_action "send_email").actions_taken = stW.actions_taken ∨
      (stW.add_action "send_email").actions_taken = stW.actions_taken ++ ["send_email"]) := by
  obtain ⟨h1, h2, h3⟩ := claim10_add_action_idempotent stW "send_email" 1
  exact ⟨h1, h2 (by decide), h3⟩
